import Mathlib

/-!
Shallow embedding of the ag360 irrigation controller core:

* `computeThreshold` embeds `backend/src/services/thresholdService.js`
  (`computeThreshold`), with JS numbers modelled as rationals and
  `Math.round` as Mathlib's `round` (both are `⌊x + 1/2⌋`).
* `handleDecision` embeds the decision portion of
  `backend/src/services/controllerService.js` (`handleTelemetryMessage`,
  from the `now = Date.now()` line to the final `no_action` event),
  given the values loaded from the database and the outcome of the
  single `publishManyFormats` call the reached branch may perform
  (`pubOk` = "at least one payload encoding succeeded").
* `irrigationEventActionEnum` embeds the `action` enum of
  `backend/src/models/IrrigationEvent.js`; `deviceStateSchemaFields`,
  `saveDeviceState` and `loadDeviceState` embed the field set of
  `backend/src/models/DeviceState.js` (mongoose strict mode drops
  writes to paths absent from the schema, and the controller loads a
  missing/null timestamp as 0).

Timestamps are milliseconds-since-epoch as integers; `0` encodes a
null timestamp, exactly as the controller's
`state && state.lastOnTs ? new Date(state.lastOnTs).getTime() : 0` does.
-/

namespace AG360

/-- Crop profile as passed to `computeThreshold`: every field optional,
missing fields fall back to the hard-coded defaults in the source. -/
structure CropProfileIn where
  Kc : Option ℚ
  targetFraction : Option ℚ
  rootDepth_cm : Option ℚ
  fieldCapacityPct : Option ℚ
  wiltingPointPct : Option ℚ
  hysteresisPct : Option ℚ
  deriving DecidableEq, Repr

/-- Profile with every field absent (all defaults apply). -/
def emptyProfile : CropProfileIn := ⟨none, none, none, none, none, none⟩

/-- One entry of the openweather-like `forecast.daily` array; `rain` may
be absent (`daily[0].rain || 0`). -/
structure ForecastDay where
  rain : Option ℚ
  deriving DecidableEq, Repr

/-- Forecast input: `daily` array plus `current.temp`. -/
structure Forecast where
  daily : List ForecastDay
  currentTemp : Option ℚ
  deriving DecidableEq, Repr

/-- Telemetry fields read by `computeThreshold`. -/
structure TelemetryIn where
  soilPct : Option ℚ
  temperature : Option ℚ
  deriving DecidableEq, Repr

/-- Result of `computeThreshold`: the two integer thresholds plus the
diagnostic `details` fields. -/
structure ThresholdResult where
  threshold_on : ℤ
  threshold_off : ℤ
  ETo : ℚ
  ETc : ℚ
  rain24 : ℚ
  rainEff : ℚ
  deltaPct : ℚ
  baselinePct : ℚ
  deriving DecidableEq, Repr

/-- Embedding of `computeThreshold` from
`backend/src/services/thresholdService.js` (lines 25-65), after the
optional DB merge has produced the effective `profile` (the DB merge
only fills fields of `cropProfile`, which this model takes directly). -/
def computeThreshold (telemetry : TelemetryIn) (forecast : Option Forecast)
    (cropProfile : CropProfileIn) : ThresholdResult :=
  let fieldCapacityPct := cropProfile.fieldCapacityPct.getD 40
  let wiltingPointPct := cropProfile.wiltingPointPct.getD 10
  let rootDepth_cm := cropProfile.rootDepth_cm.getD 30
  let Kc := cropProfile.Kc.getD (9/10)
  let targetFraction := cropProfile.targetFraction.getD (3/4)
  let hysteresisPct := cropProfile.hysteresisPct.getD 5
  let rain24 : ℚ :=
    match forecast with
    | none => 0
    | some f =>
      match f.daily with
      | [] => 0
      | d :: _ => d.rain.getD 0
  let tDay := telemetry.temperature.getD ((forecast.bind Forecast.currentTemp).getD 25)
  let ETo := max 0 ((1/10) * (tDay - 10))
  let ETc := ETo * Kc
  let rainEff := rain24 * (8/10)
  let water_deficit_mm := max 0 (ETc - rainEff)
  let mmPerPct := max 5 ((rootDepth_cm * 10) / 10)
  let deltaPct := water_deficit_mm / mmPerPct
  let baselinePct := fieldCapacityPct * targetFraction
  let safetyMargin : ℚ := 3
  let raw_threshold_on := baselinePct + deltaPct
  let threshold_on :=
    round (max (wiltingPointPct + safetyMargin) (min (fieldCapacityPct - safetyMargin) raw_threshold_on))
  let threshold_off := round (min 100 ((threshold_on : ℚ) + hysteresisPct))
  ⟨threshold_on, threshold_off, ETo, ETc, rain24, rainEff, deltaPct, baselinePct⟩

/-- Action values the controller passes to `persistEvent`. -/
inductive Action
  | ON
  | OFF
  | RECOMMEND
  deriving DecidableEq, Repr

/-- The string stored in the event's `action` field. -/
def actionString : Action → String
  | .ON => "ON"
  | .OFF => "OFF"
  | .RECOMMEND => "RECOMMEND"

/-- The `enum` of the `action` path in
`backend/src/models/IrrigationEvent.js` (line 7). -/
def irrigationEventActionEnum : List String :=
  ["ON", "OFF", "RECOMMEND_ON", "RECOMMEND_OFF", "FORCE_ON", "FORCE_OFF"]

/-- Whether `IrrigationEvent.create` passes mongoose enum validation for
this action (a failing validation is caught in `logIrrigationEvent` and
no record is appended). -/
def eventAppendSucceeds (a : Action) : Bool :=
  decide (actionString a ∈ irrigationEventActionEnum)

/-- Number of IrrigationEvent records one decision cycle appends, given
the action of its single `persistEvent` call. -/
def eventsAppended (a : Action) : ℕ :=
  if eventAppendSucceeds a then 1 else 0

/-- The schema paths of `backend/src/models/DeviceState.js`
(lines 4-12), besides the automatic timestamps. -/
def deviceStateSchemaFields : List String :=
  ["deviceId", "relayState", "lastActionTs", "lastOnTs", "lastTelemetry"]

/-- Reason codes of the single `persistEvent` call of a decision cycle,
with the numeric context the source puts into the reason string or the
`extra` object. -/
inductive Reason
  | watchdog_forced_off
  | no_numeric_soil
  | debug_force_on
  | debug_publish_failed_on
  | soil_below_threshold_on
  | publish_failed_on
  | blocked_after_off_wait (sinceLastOff minMs : ℤ)
  | blocked_by_min_between_on (sinceLastOn minMs : ℤ)
  | min_on_not_elapsed (minOnLeft : ℤ)
  | min_interval_between_off_not_elapsed (sinceLastOff : ℤ)
  | soil_above_threshold_off
  | publish_failed_off
  | no_action
  deriving DecidableEq, Repr

/-- In-memory device state as the controller uses it: the loaded values
`relayState`, `lastOnTs`, `lastOffTs` (0 when null/missing) plus
`lastActionTs`. -/
structure DevState where
  relayState : Bool
  lastOnTs : ℤ
  lastOffTs : ℤ
  lastActionTs : ℤ
  deriving DecidableEq, Repr

/-- The configuration constants of `controllerService.js` (lines 90-98). -/
structure Config where
  MIN_ON_MS : ℤ
  MIN_INTERVAL_BETWEEN_ON_MS : ℤ
  MIN_INTERVAL_AFTER_OFF_MS : ℤ
  MIN_INTERVAL_BETWEEN_OFF_MS : ℤ
  MAX_ON_MS : ℤ
  DEBUG_ALLOW_REON : Bool
  deriving DecidableEq, Repr

/-- The defaults: 60 s, 30 s, 5 s, 5 s, 4 h, debug flag unset. -/
def defaultConfig : Config :=
  ⟨60000, 30000, 5000, 5000, 14400000, false⟩

/-- Outcome of one decision cycle: the action and reason of its single
`persistEvent` call, and the in-memory state after that call. -/
structure Decision where
  action : Action
  reason : Reason
  newState : DevState
  deriving DecidableEq, Repr

/-- Embedding of the state mutation in `persistEvent`
(`controllerService.js` lines 201-207): ON sets `relayState`, `lastOnTs`
and `lastActionTs`; OFF clears `relayState` and sets `lastOffTs` and
`lastActionTs`; anything else only touches `lastActionTs`. -/
def persistEvent (now : ℤ) (st : DevState) : Action → DevState
  | .ON => ⟨true, now, st.lastOffTs, now⟩
  | .OFF => ⟨false, st.lastOnTs, now, now⟩
  | .RECOMMEND => ⟨st.relayState, st.lastOnTs, st.lastOffTs, now⟩

/-- Embedding of the decision part of `handleTelemetryMessage`
(`controllerService.js` lines 196-292): watchdog, null-soil guard, ON
evaluation (with the `DEBUG_ALLOW_REON` bypass), OFF evaluation, and the
final `no_action` event. `pubOk` is whether the one
`publishManyFormats` call of the reached branch reported at least one
successful encoding; the watchdog branch persists its OFF without
consulting it, exactly as the source does. -/
def handleDecision (cfg : Config) (now : ℤ) (soilPct : Option ℚ)
    (threshold_on threshold_off : ℤ) (st : DevState) (pubOk : Bool) : Decision :=
  let lastOnTs := st.lastOnTs
  let lastOffTs := st.lastOffTs
  let relayIsOn := st.relayState
  if relayIsOn = true ∧ now - lastOnTs > cfg.MAX_ON_MS then
    ⟨.OFF, .watchdog_forced_off, persistEvent now st .OFF⟩
  else
    match soilPct with
    | none => ⟨.RECOMMEND, .no_numeric_soil, persistEvent now st .RECOMMEND⟩
    | some soil =>
      if soil ≤ (threshold_on : ℚ) ∧ relayIsOn = false then
        if cfg.DEBUG_ALLOW_REON then
          if pubOk then ⟨.ON, .debug_force_on, persistEvent now st .ON⟩
          else ⟨.RECOMMEND, .debug_publish_failed_on, persistEvent now st .RECOMMEND⟩
        else
          let sinceLastOn := now - lastOnTs
          let sinceLastOff := now - lastOffTs
          if lastOffTs > lastOnTs then
            if sinceLastOff ≥ cfg.MIN_INTERVAL_AFTER_OFF_MS then
              if pubOk then ⟨.ON, .soil_below_threshold_on, persistEvent now st .ON⟩
              else ⟨.RECOMMEND, .publish_failed_on, persistEvent now st .RECOMMEND⟩
            else
              ⟨.RECOMMEND, .blocked_after_off_wait sinceLastOff cfg.MIN_INTERVAL_AFTER_OFF_MS,
                persistEvent now st .RECOMMEND⟩
          else
            if sinceLastOn ≥ cfg.MIN_INTERVAL_BETWEEN_ON_MS then
              if pubOk then ⟨.ON, .soil_below_threshold_on, persistEvent now st .ON⟩
              else ⟨.RECOMMEND, .publish_failed_on, persistEvent now st .RECOMMEND⟩
            else
              ⟨.RECOMMEND, .blocked_by_min_between_on sinceLastOn cfg.MIN_INTERVAL_BETWEEN_ON_MS,
                persistEvent now st .RECOMMEND⟩
      else if (threshold_off : ℚ) ≤ soil ∧ relayIsOn = true then
        let sinceOn := now - lastOnTs
        let minOnLeft := max 0 (cfg.MIN_ON_MS - sinceOn)
        if minOnLeft > 0 then
          ⟨.RECOMMEND, .min_on_not_elapsed minOnLeft, persistEvent now st .RECOMMEND⟩
        else
          let sinceLastOff := now - lastOffTs
          if sinceLastOff < cfg.MIN_INTERVAL_BETWEEN_OFF_MS then
            ⟨.RECOMMEND, .min_interval_between_off_not_elapsed sinceLastOff,
              persistEvent now st .RECOMMEND⟩
          else if pubOk then ⟨.OFF, .soil_above_threshold_off, persistEvent now st .OFF⟩
          else ⟨.RECOMMEND, .publish_failed_off, persistEvent now st .RECOMMEND⟩
      else ⟨.RECOMMEND, .no_action, persistEvent now st .RECOMMEND⟩

/-- The ON interlock gate exactly as computed in `controllerService.js`
lines 247-255: after a more recent OFF use `MIN_INTERVAL_AFTER_OFF_MS`,
otherwise `MIN_INTERVAL_BETWEEN_ON_MS`. -/
def onGateAllows (cfg : Config) (now : ℤ) (st : DevState) : Prop :=
  if st.lastOffTs > st.lastOnTs then
    now - st.lastOffTs ≥ cfg.MIN_INTERVAL_AFTER_OFF_MS
  else
    now - st.lastOnTs ≥ cfg.MIN_INTERVAL_BETWEEN_ON_MS

instance (cfg : Config) (now : ℤ) (st : DevState) : Decidable (onGateAllows cfg now st) := by
  unfold onGateAllows
  split <;> infer_instance

/-- The fields of a DeviceState document that actually persist: mongoose
strict mode keeps only schema paths, and `DeviceStateSchema` declares no
`lastOffTs`. -/
structure PersistedDeviceState where
  relayState : Bool
  lastActionTs : ℤ
  lastOnTs : ℤ
  deriving DecidableEq, Repr

/-- Saving an in-memory state: every field written by the controller
that is not a schema path (`lastOffTs`) is dropped. -/
def saveDeviceState (st : DevState) : PersistedDeviceState :=
  ⟨st.relayState, st.lastActionTs, st.lastOnTs⟩

/-- Loading a state for the next cycle: the missing `lastOffTs` path
reads as undefined, which the controller's
`state && state.lastOffTs ? ... : 0` turns into 0. -/
def loadDeviceState (p : PersistedDeviceState) : DevState :=
  ⟨p.relayState, p.lastOnTs, 0, p.lastActionTs⟩

/-! ### Helper lemmas -/

/-- `Math.round` (= Mathlib `round` on ℚ) is monotone. -/
lemma round_rat_mono {x y : ℚ} (h : x ≤ y) : round x ≤ round y := by
  rw [round_eq, round_eq]
  exact Int.floor_le_floor (by linarith)

lemma int_cast_le_round {n : ℤ} {x : ℚ} (h : (n : ℚ) ≤ x) : n ≤ round x := by
  have hr := round_rat_mono h
  rwa [round_intCast] at hr

lemma round_le_int_cast {x : ℚ} {n : ℤ} (h : x ≤ (n : ℚ)) : round x ≤ n := by
  have hr := round_rat_mono h
  rwa [round_intCast] at hr

/-- Whenever a decision cycle ends with action ON, its state update is
exactly the ON mutation of `persistEvent`. -/
lemma handleDecision_on_newState (cfg : Config) (now : ℤ) (soil : Option ℚ)
    (tOn tOff : ℤ) (st : DevState) (pubOk : Bool)
    (h : (handleDecision cfg now soil tOn tOff st pubOk).action = Action.ON) :
    (handleDecision cfg now soil tOn tOff st pubOk).newState = persistEvent now st .ON := by
  cases soil <;>
    · simp only [handleDecision] at h ⊢
      split_ifs at h ⊢ <;> simp_all [persistEvent]

/-! ### Claims -/

/-- C1: a decision cycle performs exactly one `persistEvent` call, but the
`action` vocabulary of `IrrigationEventSchema` is
{ON, OFF, RECOMMEND_ON, RECOMMEND_OFF, FORCE_ON, FORCE_OFF}: it does not
contain the `RECOMMEND` value the controller records for every no-op or
gate-blocked outcome, so mongoose enum validation rejects those events and
zero records are appended for such cycles. Shown at a concrete cycle (a
telemetry message whose soil value is unreadable). -/
theorem recommend_action_rejected_by_event_schema :
    (handleDecision defaultConfig 1000 none 30 35 ⟨false, 0, 0, 0⟩ true).action = Action.RECOMMEND ∧
    actionString Action.RECOMMEND ∉ irrigationEventActionEnum ∧
    eventsAppended Action.RECOMMEND = 0 ∧
    eventsAppended Action.ON = 1 := by
  decide

/-- C3: the DeviceState schema persists only deviceId, relayState,
lastActionTs, lastOnTs and lastTelemetry — `lastOffTs` is not a schema
path, so although `persistEvent` sets it in memory on a committed OFF,
a save/load round trip (mongoose strict mode drops non-schema paths;
the controller loads the missing value as 0) erases it: the timestamp of
a committed OFF does not survive a restart. -/
theorem lastOffTs_not_in_persistent_schema :
    "lastOffTs" ∉ deviceStateSchemaFields ∧
    (persistEvent 7000 ⟨true, 1000, 0, 1000⟩ Action.OFF).lastOffTs = 7000 ∧
    loadDeviceState (saveDeviceState (persistEvent 7000 ⟨true, 1000, 0, 1000⟩ Action.OFF)) =
      ⟨false, 1000, 0, 7000⟩ := by
  decide

/-- C2 as stated is false: the watchdog branch persists its OFF without
consulting the publish results. Concrete input: relay on since epoch 0,
telemetry at t=20000000 (past MAX_ON_MS), every encoding fails
(`pubOk = false`), yet the cycle records action OFF and sets
relayState to false. -/
theorem watchdog_commits_despite_publish_failure :
    (handleDecision defaultConfig 20000000 (some 50) 30 35 ⟨true, 0, 0, 0⟩ false).action = Action.OFF ∧
    (handleDecision defaultConfig 20000000 (some 50) 30 35 ⟨true, 0, 0, 0⟩ false).reason =
      Reason.watchdog_forced_off ∧
    (handleDecision defaultConfig 20000000 (some 50) 30 35 ⟨true, 0, 0, 0⟩ false).newState.relayState =
      false := by
  decide

/-- C2 (amended): outside the watchdog branch, a cycle in which every
payload encoding fails records a RECOMMEND and leaves relayState,
lastOnTs and lastOffTs untouched; when the ON gate had passed the reason
is `publish_failed_on`, and when both OFF gates had passed the reason is
`publish_failed_off`. -/
theorem publish_failure_never_commits (cfg : Config) (now : ℤ) (soil : Option ℚ)
    (tOn tOff : ℤ) (st : DevState)
    (hwd : ¬(st.relayState = true ∧ now - st.lastOnTs > cfg.MAX_ON_MS)) :
    ((handleDecision cfg now soil tOn tOff st false).action = Action.RECOMMEND ∧
     (handleDecision cfg now soil tOn tOff st false).newState.relayState = st.relayState ∧
     (handleDecision cfg now soil tOn tOff st false).newState.lastOnTs = st.lastOnTs ∧
     (handleDecision cfg now soil tOn tOff st false).newState.lastOffTs = st.lastOffTs) ∧
    (∀ s : ℚ, soil = some s → s ≤ (tOn : ℚ) → st.relayState = false →
      cfg.DEBUG_ALLOW_REON = false → onGateAllows cfg now st →
      (handleDecision cfg now soil tOn tOff st false).reason = Reason.publish_failed_on) ∧
    (∀ s : ℚ, soil = some s → (tOff : ℚ) ≤ s → st.relayState = true →
      now - st.lastOnTs ≥ cfg.MIN_ON_MS → now - st.lastOffTs ≥ cfg.MIN_INTERVAL_BETWEEN_OFF_MS →
      (handleDecision cfg now soil tOn tOff st false).reason = Reason.publish_failed_off) := by
  refine ⟨?_, ?_, ?_⟩
  · cases soil <;>
      · simp only [handleDecision]
        split_ifs <;> simp_all [persistEvent]
  · rintro s rfl hs hrel hdbg hgate
    unfold onGateAllows at hgate
    simp only [handleDecision]
    split_ifs at hgate ⊢ <;> simp_all
  · rintro s rfl hs hrel hon hoff
    simp only [handleDecision]
    split_ifs <;> simp_all <;> omega

/-- Witness for `publish_failure_never_commits` at a concrete input:
relay off, soil 20 below threshold 30, gate open, all publishes failed. -/
theorem publish_failure_never_commits_witness :
    ((handleDecision defaultConfig 100000 (some 20) 30 35 ⟨false, 0, 0, 0⟩ false).action =
       Action.RECOMMEND ∧
     (handleDecision defaultConfig 100000 (some 20) 30 35 ⟨false, 0, 0, 0⟩ false).newState.relayState =
       (⟨false, 0, 0, 0⟩ : DevState).relayState ∧
     (handleDecision defaultConfig 100000 (some 20) 30 35 ⟨false, 0, 0, 0⟩ false).newState.lastOnTs =
       (⟨false, 0, 0, 0⟩ : DevState).lastOnTs ∧
     (handleDecision defaultConfig 100000 (some 20) 30 35 ⟨false, 0, 0, 0⟩ false).newState.lastOffTs =
       (⟨false, 0, 0, 0⟩ : DevState).lastOffTs) ∧
    (∀ s : ℚ, some (20 : ℚ) = some s → s ≤ ((30 : ℤ) : ℚ) →
      (⟨false, 0, 0, 0⟩ : DevState).relayState = false →
      defaultConfig.DEBUG_ALLOW_REON = false → onGateAllows defaultConfig 100000 ⟨false, 0, 0, 0⟩ →
      (handleDecision defaultConfig 100000 (some 20) 30 35 ⟨false, 0, 0, 0⟩ false).reason =
        Reason.publish_failed_on) ∧
    (∀ s : ℚ, some (20 : ℚ) = some s → ((35 : ℤ) : ℚ) ≤ s →
      (⟨false, 0, 0, 0⟩ : DevState).relayState = true →
      (100000 : ℤ) - (⟨false, 0, 0, 0⟩ : DevState).lastOnTs ≥ defaultConfig.MIN_ON_MS →
      (100000 : ℤ) - (⟨false, 0, 0, 0⟩ : DevState).lastOffTs ≥
        defaultConfig.MIN_INTERVAL_BETWEEN_OFF_MS →
      (handleDecision defaultConfig 100000 (some 20) 30 35 ⟨false, 0, 0, 0⟩ false).reason =
        Reason.publish_failed_off) :=
  publish_failure_never_commits defaultConfig 100000 (some 20) 30 35 ⟨false, 0, 0, 0⟩ (by decide)

/-- C4: whenever the relay is on and has been on for more than MAX_ON_MS,
the cycle forces OFF with reason `watchdog_forced_off` — for any soil
value (null or below threshold_on included), bypassing every gate — and
the in-memory state records the OFF. -/
theorem watchdog_forces_off (cfg : Config) (now : ℤ) (soil : Option ℚ) (tOn tOff : ℤ)
    (st : DevState) (pubOk : Bool)
    (hrel : st.relayState = true) (hdur : now - st.lastOnTs > cfg.MAX_ON_MS) :
    (handleDecision cfg now soil tOn tOff st pubOk).action = Action.OFF ∧
    (handleDecision cfg now soil tOn tOff st pubOk).reason = Reason.watchdog_forced_off ∧
    (handleDecision cfg now soil tOn tOff st pubOk).newState.relayState = false ∧
    (handleDecision cfg now soil tOn tOff st pubOk).newState.lastOffTs = now := by
  simp only [handleDecision]
  rw [if_pos ⟨hrel, hdur⟩]
  simp [persistEvent]

/-- Witness for `watchdog_forces_off`: soil 10 is below threshold_on 30,
yet the stale-ON device is forced OFF. -/
theorem watchdog_forces_off_witness :
    (handleDecision defaultConfig 20000000 (some 10) 30 35 ⟨true, 0, 0, 0⟩ true).action = Action.OFF ∧
    (handleDecision defaultConfig 20000000 (some 10) 30 35 ⟨true, 0, 0, 0⟩ true).reason =
      Reason.watchdog_forced_off ∧
    (handleDecision defaultConfig 20000000 (some 10) 30 35 ⟨true, 0, 0, 0⟩ true).newState.relayState =
      false ∧
    (handleDecision defaultConfig 20000000 (some 10) 30 35 ⟨true, 0, 0, 0⟩ true).newState.lastOffTs =
      20000000 :=
  watchdog_forces_off defaultConfig 20000000 (some 10) 30 35 ⟨true, 0, 0, 0⟩ true rfl (by decide)

/-- C5 as stated is false at the spec's own concrete scenario: tomato
defaults give thresholds 30/35; soil 28 with the relay off and no prior
action commits an ON at t=100000; re-delivering the identical message
10 s later finds relayState=true, so the ON evaluation is not even
entered and the recorded reason is `no_action`, not a between-ON-gate
block reason. -/
theorem redelivery_yields_no_action_not_gate_block :
    (computeThreshold ⟨some 28, some 25⟩ none emptyProfile).threshold_on = 30 ∧
    (computeThreshold ⟨some 28, some 25⟩ none emptyProfile).threshold_off = 35 ∧
    (handleDecision defaultConfig 100000 (some 28) 30 35 ⟨false, 0, 0, 0⟩ true).action = Action.ON ∧
    (handleDecision defaultConfig 100000 (some 28) 30 35 ⟨false, 0, 0, 0⟩ true).newState =
      ⟨true, 100000, 0, 100000⟩ ∧
    (handleDecision defaultConfig 110000 (some 28) 30 35 ⟨true, 100000, 0, 100000⟩ true).action =
      Action.RECOMMEND ∧
    (handleDecision defaultConfig 110000 (some 28) 30 35 ⟨true, 100000, 0, 100000⟩ true).reason =
      Reason.no_action := by
  refine ⟨?_, ?_, by decide, by decide, by decide, by decide⟩ <;>
    norm_num [computeThreshold, emptyProfile, round_eq]

/-- C5 (amended): once a cycle has committed an ON, re-delivering the
identical telemetry (soil still below threshold_off) within the watchdog
bound produces no second ON actuation: the second delivery records a
RECOMMEND with reason `no_action` — the ON evaluation requires
relayState=false, which no longer holds — and the relay stays on. -/
theorem redelivery_after_committed_on (cfg : Config) (now1 now2 : ℤ) (s : ℚ)
    (tOn tOff : ℤ) (st0 : DevState)
    (h1 : (handleDecision cfg now1 (some s) tOn tOff st0 true).action = Action.ON)
    (hs : s < (tOff : ℚ))
    (hwd : ¬(now2 - now1 > cfg.MAX_ON_MS)) :
    (handleDecision cfg now2 (some s) tOn tOff
        (handleDecision cfg now1 (some s) tOn tOff st0 true).newState true).action =
      Action.RECOMMEND ∧
    (handleDecision cfg now2 (some s) tOn tOff
        (handleDecision cfg now1 (some s) tOn tOff st0 true).newState true).reason =
      Reason.no_action ∧
    (handleDecision cfg now2 (some s) tOn tOff
        (handleDecision cfg now1 (some s) tOn tOff st0 true).newState true).newState.relayState =
      true := by
  rw [handleDecision_on_newState cfg now1 (some s) tOn tOff st0 true h1]
  simp only [handleDecision, persistEvent]
  rw [if_neg (fun h => hwd h.2)]
  rw [if_neg (fun h => absurd h.2 (by decide))]
  rw [if_neg (fun h => absurd h.1 (not_le.mpr hs))]
  exact ⟨rfl, rfl, rfl⟩

/-- Witness for `redelivery_after_committed_on` at the spec scenario
(thresholds 30/35, first ON at t=100000, re-delivery at t=110000). -/
theorem redelivery_after_committed_on_witness :
    (handleDecision defaultConfig 110000 (some 28) 30 35
        (handleDecision defaultConfig 100000 (some 28) 30 35 ⟨false, 0, 0, 0⟩ true).newState
        true).action = Action.RECOMMEND ∧
    (handleDecision defaultConfig 110000 (some 28) 30 35
        (handleDecision defaultConfig 100000 (some 28) 30 35 ⟨false, 0, 0, 0⟩ true).newState
        true).reason = Reason.no_action ∧
    (handleDecision defaultConfig 110000 (some 28) 30 35
        (handleDecision defaultConfig 100000 (some 28) 30 35 ⟨false, 0, 0, 0⟩ true).newState
        true).newState.relayState = true :=
  redelivery_after_committed_on defaultConfig 100000 110000 28 30 35 ⟨false, 0, 0, 0⟩
    (by decide) (by decide) (by decide)

/-- C6: in every ON evaluation (soil at or below threshold_on, relay
off, debug flag unset, delivery succeeding), the decision is exactly the
two-armed interval gate of the source: after a more recent OFF, ON iff
`now - lastOffTs ≥ MIN_INTERVAL_AFTER_OFF_MS`; otherwise ON iff
`now - lastOnTs ≥ MIN_INTERVAL_BETWEEN_ON_MS`. When the gate blocks, the
cycle records a RECOMMEND carrying the specific block reason and the
relay is not actuated. -/
theorem on_gate_rule (cfg : Config) (now : ℤ) (s : ℚ) (tOn tOff : ℤ) (st : DevState)
    (hrel : st.relayState = false) (hs : s ≤ (tOn : ℚ)) (hdbg : cfg.DEBUG_ALLOW_REON = false) :
    ((handleDecision cfg now (some s) tOn tOff st true).action = Action.ON ↔
      onGateAllows cfg now st) ∧
    (¬ onGateAllows cfg now st →
      (handleDecision cfg now (some s) tOn tOff st true).action = Action.RECOMMEND ∧
      (handleDecision cfg now (some s) tOn tOff st true).newState.relayState = false ∧
      (handleDecision cfg now (some s) tOn tOff st true).reason =
        (if st.lastOffTs > st.lastOnTs then
          Reason.blocked_after_off_wait (now - st.lastOffTs) cfg.MIN_INTERVAL_AFTER_OFF_MS
        else
          Reason.blocked_by_min_between_on (now - st.lastOnTs) cfg.MIN_INTERVAL_BETWEEN_ON_MS)) := by
  unfold onGateAllows
  simp only [handleDecision, hrel, hdbg]
  split_ifs with hw hcond hoffrecent hafter hbeton <;>
    simp_all [persistEvent]

/-- Witness for `on_gate_rule`: relay off, last ON 10 s ago (no OFF
since), soil 28 ≤ 30; the between-ON gate (30 s) blocks and the cycle
records the corresponding reason. -/
theorem on_gate_rule_witness :
    (((handleDecision defaultConfig 100000 (some 28) 30 35 ⟨false, 90000, 0, 90000⟩ true).action =
        Action.ON ↔ onGateAllows defaultConfig 100000 ⟨false, 90000, 0, 90000⟩) ∧
     (¬ onGateAllows defaultConfig 100000 ⟨false, 90000, 0, 90000⟩ →
       (handleDecision defaultConfig 100000 (some 28) 30 35 ⟨false, 90000, 0, 90000⟩ true).action =
         Action.RECOMMEND ∧
       (handleDecision defaultConfig 100000 (some 28) 30 35
           ⟨false, 90000, 0, 90000⟩ true).newState.relayState = false ∧
       (handleDecision defaultConfig 100000 (some 28) 30 35 ⟨false, 90000, 0, 90000⟩ true).reason =
         (if (⟨false, 90000, 0, 90000⟩ : DevState).lastOffTs >
             (⟨false, 90000, 0, 90000⟩ : DevState).lastOnTs then
           Reason.blocked_after_off_wait
             (100000 - (⟨false, 90000, 0, 90000⟩ : DevState).lastOffTs)
             defaultConfig.MIN_INTERVAL_AFTER_OFF_MS
         else
           Reason.blocked_by_min_between_on
             (100000 - (⟨false, 90000, 0, 90000⟩ : DevState).lastOnTs)
             defaultConfig.MIN_INTERVAL_BETWEEN_ON_MS))) :=
  on_gate_rule defaultConfig 100000 28 30 35 ⟨false, 90000, 0, 90000⟩ rfl (by decide) rfl

/-- C7: a reading at or above threshold_off arriving while the relay has
been on for less than MIN_ON_MS (and MIN_ON_MS ≤ MAX_ON_MS, as with the
defaults 60 s vs 4 h) never turns the relay off: the cycle records a
RECOMMEND with reason `min_on_not_elapsed` carrying the remaining wait
time, and relayState stays true. -/
theorem min_on_blocks_early_off (cfg : Config) (now : ℤ) (s : ℚ) (tOn tOff : ℤ)
    (st : DevState)
    (hrel : st.relayState = true)
    (hmax : cfg.MIN_ON_MS ≤ cfg.MAX_ON_MS)
    (hbefore : now - st.lastOnTs < cfg.MIN_ON_MS)
    (hs : (tOff : ℚ) ≤ s) :
    (handleDecision cfg now (some s) tOn tOff st true).action = Action.RECOMMEND ∧
    (handleDecision cfg now (some s) tOn tOff st true).reason =
      Reason.min_on_not_elapsed (cfg.MIN_ON_MS - (now - st.lastOnTs)) ∧
    (handleDecision cfg now (some s) tOn tOff st true).newState.relayState = true := by
  simp only [handleDecision]
  rw [if_neg (by rintro ⟨-, h⟩; omega :
    ¬(st.relayState = true ∧ now - st.lastOnTs > cfg.MAX_ON_MS))]
  rw [if_neg (by rintro ⟨-, h⟩; rw [hrel] at h; exact absurd h (by decide) :
    ¬(s ≤ (tOn : ℚ) ∧ st.relayState = false))]
  rw [if_pos ⟨hs, hrel⟩]
  rw [if_pos (lt_max_iff.mpr (Or.inr (by omega)) :
    (0 : ℤ) < max 0 (cfg.MIN_ON_MS - (now - st.lastOnTs)))]
  refine ⟨rfl, ?_, ?_⟩
  · rw [max_eq_right (by omega : (0 : ℤ) ≤ cfg.MIN_ON_MS - (now - st.lastOnTs))]
  · simp [persistEvent, hrel]

/-- Witness for `min_on_blocks_early_off`: relay turned on at t0=100000,
soil 40 ≥ 35 arrives 1 s later; OFF is blocked with 59 s left. -/
theorem min_on_blocks_early_off_witness :
    (handleDecision defaultConfig 101000 (some 40) 30 35 ⟨true, 100000, 0, 100000⟩ true).action =
      Action.RECOMMEND ∧
    (handleDecision defaultConfig 101000 (some 40) 30 35 ⟨true, 100000, 0, 100000⟩ true).reason =
      Reason.min_on_not_elapsed (defaultConfig.MIN_ON_MS - (101000 -
        (⟨true, 100000, 0, 100000⟩ : DevState).lastOnTs)) ∧
    (handleDecision defaultConfig 101000 (some 40) 30 35
        ⟨true, 100000, 0, 100000⟩ true).newState.relayState = true :=
  min_on_blocks_early_off defaultConfig 101000 40 30 35 ⟨true, 100000, 0, 100000⟩
    rfl (by decide) (by decide) (by decide)

/-- Core arithmetic of the threshold band bounds, for integer wilting
point and field capacity at least 6 percent apart. -/
lemma band_core (wp fc : ℤ) (raw hyst : ℚ) (hgap : wp + 6 ≤ fc) (hfc100 : fc ≤ 100)
    (hh : 0 ≤ hyst) :
    round (max ((wp : ℚ) + 3) (min ((fc : ℚ) - 3) raw)) ≤
      round (min 100 ((round (max ((wp : ℚ) + 3) (min ((fc : ℚ) - 3) raw)) : ℚ) + hyst)) ∧
    wp + 3 ≤ round (max ((wp : ℚ) + 3) (min ((fc : ℚ) - 3) raw)) ∧
    round (max ((wp : ℚ) + 3) (min ((fc : ℚ) - 3) raw)) ≤ fc - 3 ∧
    round (max ((wp : ℚ) + 3) (min ((fc : ℚ) - 3) raw)) ≤ 100 ∧
    wp + 3 ≤ round (min 100 ((round (max ((wp : ℚ) + 3) (min ((fc : ℚ) - 3) raw)) : ℚ) + hyst)) ∧
    round (min 100 ((round (max ((wp : ℚ) + 3) (min ((fc : ℚ) - 3) raw)) : ℚ) + hyst)) ≤ 100 := by
  have hc_lo : ((wp + 3 : ℤ) : ℚ) ≤ max ((wp : ℚ) + 3) (min ((fc : ℚ) - 3) raw) := by
    push_cast
    exact le_max_left _ _
  have hc_hi : max ((wp : ℚ) + 3) (min ((fc : ℚ) - 3) raw) ≤ ((fc - 3 : ℤ) : ℚ) := by
    have hq : (wp : ℚ) + 6 ≤ (fc : ℚ) := by exact_mod_cast hgap
    push_cast
    exact max_le (by linarith) (min_le_left _ _)
  have h1 : wp + 3 ≤ round (max ((wp : ℚ) + 3) (min ((fc : ℚ) - 3) raw)) :=
    int_cast_le_round hc_lo
  have h2 : round (max ((wp : ℚ) + 3) (min ((fc : ℚ) - 3) raw)) ≤ fc - 3 :=
    round_le_int_cast hc_hi
  have h3 : round (max ((wp : ℚ) + 3) (min ((fc : ℚ) - 3) raw)) ≤ 100 := by omega
  have h4 : round (max ((wp : ℚ) + 3) (min ((fc : ℚ) - 3) raw)) ≤
      round (min 100 ((round (max ((wp : ℚ) + 3) (min ((fc : ℚ) - 3) raw)) : ℚ) + hyst)) := by
    apply int_cast_le_round
    apply le_min
    · exact_mod_cast h3
    · linarith
  have h5 : round (min 100 ((round (max ((wp : ℚ) + 3) (min ((fc : ℚ) - 3) raw)) : ℚ) + hyst)) ≤
      100 := by
    apply round_le_int_cast
    push_cast
    exact min_le_left _ _
  exact ⟨h4, h1, h2, h3, by omega, h5⟩

/-- C8 as stated is false: the only validity constraints claimed are
percentages in [0,100], wiltingPointPct < fieldCapacityPct and
hysteresis ≥ 0, but with wiltingPointPct=10 and fieldCapacityPct=12 the
clamp bounds cross and `threshold_on = 13 > fieldCapacityPct - 3 = 9`. -/
theorem band_ordering_counterexample :
    ((0 : ℚ) ≤ 10 ∧ (10 : ℚ) < 12 ∧ (12 : ℚ) ≤ 100) ∧
    (computeThreshold ⟨some 28, some 25⟩ none
        ⟨none, none, none, some 12, some 10, none⟩).threshold_on = 13 ∧
    ¬((computeThreshold ⟨some 28, some 25⟩ none
        ⟨none, none, none, some 12, some 10, none⟩).threshold_on ≤ 12 - 3) := by
  refine ⟨by norm_num, ?_, ?_⟩ <;>
    norm_num [computeThreshold, round_eq]

/-- C8 (amended): for crop profiles whose wilting point and field
capacity are integer percentages in range with
`fieldCapacityPct - wiltingPointPct ≥ 6` (so the ±3 safety margins do
not cross) and nonnegative hysteresis, `computeThreshold` satisfies
`threshold_on ≤ threshold_off`, both thresholds in
`[wiltingPointPct + 3, 100]`, and `threshold_on ≤ fieldCapacityPct - 3` —
for every telemetry and forecast input. -/
theorem band_ordering (telemetry : TelemetryIn) (forecast : Option Forecast)
    (profile : CropProfileIn) (wp fc : ℤ)
    (hwp : profile.wiltingPointPct = some ((wp : ℤ) : ℚ))
    (hfc : profile.fieldCapacityPct = some ((fc : ℤ) : ℚ))
    (hgap : wp + 6 ≤ fc) (hfc100 : fc ≤ 100)
    (hh : 0 ≤ profile.hysteresisPct.getD 5) :
    (computeThreshold telemetry forecast profile).threshold_on ≤
      (computeThreshold telemetry forecast profile).threshold_off ∧
    wp + 3 ≤ (computeThreshold telemetry forecast profile).threshold_on ∧
    (computeThreshold telemetry forecast profile).threshold_on ≤ fc - 3 ∧
    (computeThreshold telemetry forecast profile).threshold_on ≤ 100 ∧
    wp + 3 ≤ (computeThreshold telemetry forecast profile).threshold_off ∧
    (computeThreshold telemetry forecast profile).threshold_off ≤ 100 := by
  simp only [computeThreshold, hwp, hfc, Option.getD_some]
  exact band_core wp fc _ _ hgap hfc100 hh

/-- Witness for `band_ordering` at the default tomato profile
(wp=10, fc=40) and the spec's concrete telemetry. -/
theorem band_ordering_witness :
    (computeThreshold ⟨some 28, some 25⟩ none
        ⟨none, none, none, some ((40 : ℤ) : ℚ), some ((10 : ℤ) : ℚ), none⟩).threshold_on ≤
      (computeThreshold ⟨some 28, some 25⟩ none
        ⟨none, none, none, some ((40 : ℤ) : ℚ), some ((10 : ℤ) : ℚ), none⟩).threshold_off ∧
    (10 : ℤ) + 3 ≤ (computeThreshold ⟨some 28, some 25⟩ none
        ⟨none, none, none, some ((40 : ℤ) : ℚ), some ((10 : ℤ) : ℚ), none⟩).threshold_on ∧
    (computeThreshold ⟨some 28, some 25⟩ none
        ⟨none, none, none, some ((40 : ℤ) : ℚ), some ((10 : ℤ) : ℚ), none⟩).threshold_on ≤
      (40 : ℤ) - 3 ∧
    (computeThreshold ⟨some 28, some 25⟩ none
        ⟨none, none, none, some ((40 : ℤ) : ℚ), some ((10 : ℤ) : ℚ), none⟩).threshold_on ≤ 100 ∧
    (10 : ℤ) + 3 ≤ (computeThreshold ⟨some 28, some 25⟩ none
        ⟨none, none, none, some ((40 : ℤ) : ℚ), some ((10 : ℤ) : ℚ), none⟩).threshold_off ∧
    (computeThreshold ⟨some 28, some 25⟩ none
        ⟨none, none, none, some ((40 : ℤ) : ℚ), some ((10 : ℤ) : ℚ), none⟩).threshold_off ≤ 100 :=
  band_ordering ⟨some 28, some 25⟩ none ⟨none, none, none, some ((40 : ℤ) : ℚ), some ((10 : ℤ) : ℚ), none⟩
    10 40 rfl rfl (by decide) (by decide) (by norm_num)

/-- C9: holding the crop profile, telemetry, the rest of the daily
forecast and the forecast temperature fixed, increasing the forecast
rain amount `rain24` never increases `threshold_on`. -/
theorem threshold_on_antitone_in_rain (telemetry : TelemetryIn) (ct : Option ℚ)
    (rest : List ForecastDay) (profile : CropProfileIn) (r1 r2 : ℚ) (h : r1 ≤ r2) :
    (computeThreshold telemetry (some ⟨⟨some r2⟩ :: rest, ct⟩) profile).threshold_on ≤
      (computeThreshold telemetry (some ⟨⟨some r1⟩ :: rest, ct⟩) profile).threshold_on := by
  simp only [computeThreshold, Option.some_bind, Option.getD_some]
  apply round_rat_mono
  apply max_le_max le_rfl
  apply min_le_min le_rfl
  apply add_le_add_left
  have hM : (0 : ℚ) < max 5 (profile.rootDepth_cm.getD 30 * 10 / 10) :=
    lt_of_lt_of_le (by norm_num) (le_max_left _ _)
  rw [div_le_div_iff_of_pos_right hM]
  apply max_le_max le_rfl
  apply sub_le_sub_left
  linarith

/-- Witness for `threshold_on_antitone_in_rain`: rain 0 mm vs 10 mm over
the default profile. -/
theorem threshold_on_antitone_in_rain_witness :
    (computeThreshold ⟨some 28, some 25⟩ (some ⟨⟨some 10⟩ :: [], none⟩)
        emptyProfile).threshold_on ≤
      (computeThreshold ⟨some 28, some 25⟩ (some ⟨⟨some 0⟩ :: [], none⟩)
        emptyProfile).threshold_on :=
  threshold_on_antitone_in_rain ⟨some 28, some 25⟩ none [] emptyProfile 0 10 (by norm_num)

/-- A configuration identical to the defaults except that the
`DEBUG_ALLOW_REON` escape hatch is enabled. -/
def debugConfig : Config :=
  ⟨60000, 30000, 5000, 5000, 14400000, true⟩

/-- C10: with DEBUG_ALLOW_REON=false (the default) the debug branch is
unreachable — no cycle ever records a debug reason, and every automatic
ON has passed the interval gate; with the flag true, soil at or below
threshold_on on a relay-off device publishes ON and (on delivery
success) commits relayState=true with reason `debug_force_on`,
regardless of lastOnTs/lastOffTs — both interval gates are bypassed. -/
theorem debug_allow_reon_bypass :
    (∀ (cfg : Config) (now : ℤ) (soil : Option ℚ) (tOn tOff : ℤ) (st : DevState) (pubOk : Bool),
      cfg.DEBUG_ALLOW_REON = false →
        (handleDecision cfg now soil tOn tOff st pubOk).reason ≠ Reason.debug_force_on ∧
        (handleDecision cfg now soil tOn tOff st pubOk).reason ≠ Reason.debug_publish_failed_on ∧
        ((handleDecision cfg now soil tOn tOff st pubOk).action = Action.ON →
          onGateAllows cfg now st)) ∧
    (∀ (cfg : Config) (now : ℤ) (s : ℚ) (tOn tOff : ℤ) (st : DevState),
      cfg.DEBUG_ALLOW_REON = true → s ≤ (tOn : ℚ) → st.relayState = false →
        (handleDecision cfg now (some s) tOn tOff st true).action = Action.ON ∧
        (handleDecision cfg now (some s) tOn tOff st true).reason = Reason.debug_force_on ∧
        (handleDecision cfg now (some s) tOn tOff st true).newState.relayState = true) := by
  constructor
  · intro cfg now soil tOn tOff st pubOk hdbg
    unfold onGateAllows
    cases soil <;>
      · simp only [handleDecision]
        split_ifs <;> simp_all [persistEvent]
  · intro cfg now s tOn tOff st hdbg hs hrel
    simp only [handleDecision]
    split_ifs <;> simp_all [persistEvent]

/-- Witness for `debug_allow_reon_bypass`: flag off at a null-soil cycle;
flag on with the relay turned on only 1 ms ago (both gates would block)
yet ON is committed. -/
theorem debug_allow_reon_bypass_witness :
    ((handleDecision defaultConfig 1000 none 30 35 ⟨false, 0, 0, 0⟩ true).reason ≠
       Reason.debug_force_on ∧
     (handleDecision defaultConfig 1000 none 30 35 ⟨false, 0, 0, 0⟩ true).reason ≠
       Reason.debug_publish_failed_on ∧
     ((handleDecision defaultConfig 1000 none 30 35 ⟨false, 0, 0, 0⟩ true).action = Action.ON →
       onGateAllows defaultConfig 1000 ⟨false, 0, 0, 0⟩)) ∧
    ((handleDecision debugConfig 1000 (some 28) 30 35 ⟨false, 999, 999, 999⟩ true).action =
       Action.ON ∧
     (handleDecision debugConfig 1000 (some 28) 30 35 ⟨false, 999, 999, 999⟩ true).reason =
       Reason.debug_force_on ∧
     (handleDecision debugConfig 1000 (some 28) 30 35
        ⟨false, 999, 999, 999⟩ true).newState.relayState = true) :=
  ⟨debug_allow_reon_bypass.1 defaultConfig 1000 none 30 35 ⟨false, 0, 0, 0⟩ true rfl,
   debug_allow_reon_bypass.2 debugConfig 1000 28 30 35 ⟨false, 999, 999, 999⟩ rfl
     (by decide) rfl⟩

end AG360
